import Mathlib

/-!
# Verification of the `angvelxform_dot` symbolic derivation notebook

The notebook `src/symbolic/angvelxform_dot.ipynb` uses a computer-algebra
engine to derive

* `T_dot`, the time derivative of the scalar coefficient
  `Θ(θ) = (1/θ²)·(1 − (θ/2)·sin θ/(1 − cos θ))` appearing in the Jacobian
  from angular velocity to exponential-coordinate rates, and
* `theta_dot`, the time derivative of `θ = ‖(φ₀, φ₁, φ₂)‖`,

then removes the explicit time dependence by substitution and renders the
results as text.  This file embeds the notebook's symbolic expressions,
the differentiation and substitution steps, and the output events, and
proves the spec's claims about them against Mathlib's real analysis.
-/

set_option maxRecDepth 8192

namespace AngVelXformDot

/-- Symbolic expression tree.  This mirrors the expressions the notebook
builds: integer constants, named scalar symbols, an undefined function of
the time symbol `t` applied to `t` (`app f` stands for `f(t)`), an
unevaluated derivative with respect to `t` (`derivT e` stands for
`Derivative(e, t)`), the arithmetic operators, natural powers, and the
functions `sin`, `cos`, `sqrt`, `exp` used by the notebook. -/
inductive Expr where
  | intC : ℤ → Expr
  | sym : String → Expr
  | app : String → Expr
  | derivT : Expr → Expr
  | add : Expr → Expr → Expr
  | sub : Expr → Expr → Expr
  | mul : Expr → Expr → Expr
  | div : Expr → Expr → Expr
  | pow : Expr → ℕ → Expr
  | sin : Expr → Expr
  | cos : Expr → Expr
  | sqrt : Expr → Expr
  | exp : Expr → Expr
deriving DecidableEq, Repr

namespace Expr

/-- Formal differentiation with respect to the time symbol `t`, following
the calculus rules the algebra engine applies: linearity, product rule,
quotient rule, power rule, chain rule for `sin`, `cos`, `sqrt`, `exp`, and
`d f(t)/dt = Derivative(f(t), t)` for an undefined function of time. -/
def diffT : Expr → Expr
  | intC _ => intC 0
  | sym s => if s = "t" then intC 1 else intC 0
  | app f => derivT (app f)
  | derivT e => derivT (derivT e)
  | add a b => add (diffT a) (diffT b)
  | sub a b => sub (diffT a) (diffT b)
  | mul a b => add (mul (diffT a) b) (mul a (diffT b))
  | div a b => div (sub (mul (diffT a) b) (mul a (diffT b))) (pow b 2)
  | pow a n => mul (mul (intC (n : ℤ)) (pow a (n - 1))) (diffT a)
  | sin a => mul (cos a) (diffT a)
  | cos a => mul (sub (intC 0) (sin a)) (diffT a)
  | sqrt a => div (diffT a) (mul (intC 2) (sqrt a))
  | exp a => mul (exp a) (diffT a)

/-- Substitution of a pattern subtree `p` by a replacement `r`:
an occurrence of `p` anywhere in the tree is replaced by `r`, matching
the engine's `subs` on the patterns the notebook uses. -/
def subst (p r : Expr) (e : Expr) : Expr :=
  if e = p then r
  else
    match e with
    | derivT a => derivT (subst p r a)
    | add a b => add (subst p r a) (subst p r b)
    | sub a b => sub (subst p r a) (subst p r b)
    | mul a b => mul (subst p r a) (subst p r b)
    | div a b => div (subst p r a) (subst p r b)
    | pow a n => pow (subst p r a) n
    | sin a => sin (subst p r a)
    | cos a => cos (subst p r a)
    | sqrt a => sqrt (subst p r a)
    | exp a => exp (subst p r a)
    | x => x

/-- Does expression `q` occur as a subtree of `e`? -/
def containsSub (q : Expr) (e : Expr) : Bool :=
  e = q ||
    match e with
    | derivT a => containsSub q a
    | add a b => containsSub q a || containsSub q b
    | sub a b => containsSub q a || containsSub q b
    | mul a b => containsSub q a || containsSub q b
    | div a b => containsSub q a || containsSub q b
    | pow a _ => containsSub q a
    | sin a => containsSub q a
    | cos a => containsSub q a
    | sqrt a => containsSub q a
    | exp a => containsSub q a
    | _ => false

/-- Does the expression contain an unevaluated `Derivative` node? -/
def hasDeriv : Expr → Bool
  | derivT _ => true
  | add a b => hasDeriv a || hasDeriv b
  | sub a b => hasDeriv a || hasDeriv b
  | mul a b => hasDeriv a || hasDeriv b
  | div a b => hasDeriv a || hasDeriv b
  | pow a _ => hasDeriv a
  | sin a => hasDeriv a
  | cos a => hasDeriv a
  | sqrt a => hasDeriv a
  | exp a => hasDeriv a
  | _ => false

/-- Does the expression contain an applied function of time `f(t)`? -/
def hasAppT : Expr → Bool
  | app _ => true
  | derivT a => hasAppT a
  | add a b => hasAppT a || hasAppT b
  | sub a b => hasAppT a || hasAppT b
  | mul a b => hasAppT a || hasAppT b
  | div a b => hasAppT a || hasAppT b
  | pow a _ => hasAppT a
  | sin a => hasAppT a
  | cos a => hasAppT a
  | sqrt a => hasAppT a
  | exp a => hasAppT a
  | _ => false

/-- Does the expression mention the time symbol `t` itself? -/
def hasTSym : Expr → Bool
  | sym s => s = "t"
  | derivT a => hasTSym a
  | add a b => hasTSym a || hasTSym b
  | sub a b => hasTSym a || hasTSym b
  | mul a b => hasTSym a || hasTSym b
  | div a b => hasTSym a || hasTSym b
  | pow a _ => hasTSym a
  | sin a => hasTSym a
  | cos a => hasTSym a
  | sqrt a => hasTSym a
  | exp a => hasTSym a
  | _ => false

/-- An expression is time-independent when it contains no `Derivative`
node, no applied function of `t`, and no occurrence of `t` itself. -/
def timeFree (e : Expr) : Bool :=
  !e.hasDeriv && !e.hasAppT && !e.hasTSym

/-- The atomic plain symbols occurring in an expression. -/
def atomSyms : Expr → List String
  | sym s => [s]
  | derivT a => atomSyms a
  | add a b => atomSyms a ++ atomSyms b
  | sub a b => atomSyms a ++ atomSyms b
  | mul a b => atomSyms a ++ atomSyms b
  | div a b => atomSyms a ++ atomSyms b
  | pow a _ => atomSyms a
  | sin a => atomSyms a
  | cos a => atomSyms a
  | sqrt a => atomSyms a
  | exp a => atomSyms a
  | _ => []

end Expr

open Expr

/-! ## The notebook's derivation, step by step -/

/-- Cell `theta_t = Function(theta)(t)`: the angle as a function of time. -/
def theta_t : Expr := app "theta"

/-- Cell `Theta = 1 / theta_t ** 2 * (1 - theta_t / 2 * sin(theta_t) / (1 - cos(theta_t)))`. -/
def Theta : Expr :=
  mul (div (intC 1) (pow theta_t 2))
    (sub (intC 1)
      (div (mul (div theta_t (intC 2)) (sin theta_t))
        (sub (intC 1) (cos theta_t))))

/-- Cell `T_dot = Theta.diff(t)`: the raw time derivative, still
containing `theta(t)` and `Derivative(theta(t), t)`. -/
def T_dot_raw : Expr := diffT Theta

/-- Cell `T_dot = T_dot.subs([(theta_t.diff(t), theta_dot), (theta_t, theta)])`:
the substitution list is applied sequentially, derivative pattern first,
then the base symbol. -/
def T_dot : Expr :=
  subst theta_t (sym "theta")
    (subst (derivT theta_t) (sym "theta_dot") T_dot_raw)

/-- The same two substitutions applied in the wrong order (base symbol
first): used to check the spec's substitution-order claim. -/
def T_dot_wrongOrder : Expr :=
  subst (derivT theta_t) (sym "theta_dot")
    (subst theta_t (sym "theta") T_dot_raw)

/-- The names `('varphi_0', 'varphi_1', 'varphi_2')` of the components of
the exponential-coordinate vector. -/
def phi_names : List String := ["varphi_0", "varphi_1", "varphi_2"]

/-- The applied functions of time `varphi_i(t)`. -/
def phi_t : List Expr := phi_names.map app

/-- Their time derivatives `Derivative(varphi_i(t), t)`. -/
def phi_d : List Expr := phi_t.map diffT

/-- The plain rate names `varphi_i_dot`, built by string concatenation in
the notebook loop (`phi_n.append(i + '_dot')`). -/
def phi_n : List String := phi_names.map (fun i => i ++ "_dot")

/-- Cell `theta = Matrix(phi_t).norm()`: the Euclidean norm
`sqrt(varphi_0(t)² + varphi_1(t)² + varphi_2(t)²)` (the entries are
real-valued, so the engine's `Abs(x)²` is `x²`). -/
def thetaNorm : Expr :=
  sqrt (add (add (pow (app "varphi_0") 2) (pow (app "varphi_1") 2))
    (pow (app "varphi_2") 2))

/-- Cell `theta_dot = theta.diff(t)`: the raw derivative of the norm. -/
def theta_dot_raw : Expr := diffT thetaNorm

/-- Cells `theta_dot = theta_dot.subs(zip(phi_d, phi_n))` then
`theta_dot = theta_dot.subs(zip(phi_t, phi))`: derivative patterns are
replaced by the plain rate symbols first, then the functions of time by
the plain base symbols. -/
def theta_dot : Expr :=
  subst (app "varphi_2") (sym "varphi_2")
    (subst (app "varphi_1") (sym "varphi_1")
      (subst (app "varphi_0") (sym "varphi_0")
        (subst (derivT (app "varphi_2")) (sym "varphi_2_dot")
          (subst (derivT (app "varphi_1")) (sym "varphi_1_dot")
            (subst (derivT (app "varphi_0")) (sym "varphi_0_dot")
              theta_dot_raw)))))

/-- The same six substitutions with the base-symbol patterns applied
before the derivative patterns: the order check for step 7. -/
def theta_dot_wrongOrder : Expr :=
  subst (derivT (app "varphi_2")) (sym "varphi_2_dot")
    (subst (derivT (app "varphi_1")) (sym "varphi_1_dot")
      (subst (derivT (app "varphi_0")) (sym "varphi_0_dot")
        (subst (app "varphi_2") (sym "varphi_2")
          (subst (app "varphi_1") (sym "varphi_1")
            (subst (app "varphi_0") (sym "varphi_0")
              theta_dot_raw)))))

/-- Final cell `d = diff(exp(A_t), t)`: the derivative of `exp(A(t))`
that the notebook prints as its last action. -/
def d_exprA : Expr := diffT (exp (app "A"))

/-! ## Symbol assumptions

The notebook declares symbols with the real-valued assumption in three
places: `symbols('theta theta_dot t', real=True)`,
`symbols(i, real=True)` for each component name, and
`symbols('A t', real=True)`.  The rate names `varphi_i_dot` are never
passed through `symbols(..., real=True)`: they enter the expressions as
plain strings handed to `subs`, which turns them into symbols with the
default (no) assumptions. -/

/-- The names declared with `real=True` somewhere in the notebook. -/
def realDeclared : List String :=
  ["theta", "theta_dot", "t", "varphi_0", "varphi_1", "varphi_2", "A"]

/-- Whether a symbol name carries the real-valued assumption. -/
def declaredReal (s : String) : Bool := s ∈ realDeclared

/-! ## Rendering and output events -/

/-- Textual rendering of an expression, corresponding to the engine's
code printer used in `pycode(T_dot)` (fully parenthesized). -/
def pycode : Expr → String
  | intC n => toString n
  | sym s => s
  | app f => f ++ "(t)"
  | derivT e => "Derivative(" ++ pycode e ++ ", t)"
  | add a b => "(" ++ pycode a ++ " + " ++ pycode b ++ ")"
  | sub a b => "(" ++ pycode a ++ " - " ++ pycode b ++ ")"
  | mul a b => "(" ++ pycode a ++ "*" ++ pycode b ++ ")"
  | div a b => "(" ++ pycode a ++ "/" ++ pycode b ++ ")"
  | pow a n => "(" ++ pycode a ++ "**" ++ toString n ++ ")"
  | sin a => "math.sin(" ++ pycode a ++ ")"
  | cos a => "math.cos(" ++ pycode a ++ ")"
  | sqrt a => "math.sqrt(" ++ pycode a ++ ")"
  | exp a => "math.exp(" ++ pycode a ++ ")"

/-- Plain string form of an expression, as produced by `print`. -/
def strE : Expr → String
  | intC n => toString n
  | sym s => s
  | app f => f ++ "(t)"
  | derivT e => "Derivative(" ++ strE e ++ ", t)"
  | add a b => "(" ++ strE a ++ " + " ++ strE b ++ ")"
  | sub a b => "(" ++ strE a ++ " - " ++ strE b ++ ")"
  | mul a b => "(" ++ strE a ++ "*" ++ strE b ++ ")"
  | div a b => "(" ++ strE a ++ "/" ++ strE b ++ ")"
  | pow a n => "(" ++ strE a ++ "**" ++ toString n ++ ")"
  | sin a => "sin(" ++ strE a ++ ")"
  | cos a => "cos(" ++ strE a ++ ")"
  | sqrt a => "sqrt(" ++ strE a ++ ")"
  | exp a => "exp(" ++ strE a ++ ")"

/-- The code printer, with the failure mode it has in the engine made
explicit: an expression containing an unevaluated `Derivative` node or an
applied undefined function is not supported by the code printer. -/
def pycodeChecked (e : Expr) : Except String String :=
  if e.hasDeriv || e.hasAppT then Except.error "unsupported node"
  else Except.ok (pycode e)

/-- One output event of the notebook: either the rich display of the
value a cell ends with, or text written by `print` or produced as a
string result. -/
inductive Output where
  | display : Expr → Output
  | text : String → Output
deriving DecidableEq, Repr

/-- All output events of the notebook, in execution order: the displayed
trailing expressions of the code cells, the `pycode` string, and the
final `print(d)`. -/
def outputs : List Output :=
  [Output.display theta_t,
   Output.display Theta,
   Output.display T_dot_raw,
   Output.display T_dot,
   Output.text (pycode T_dot),
   Output.display thetaNorm,
   Output.display theta_dot_raw,
   Output.display theta_dot,
   Output.text (strE d_exprA)]

/-- The result of one run of the derivation: the two closed-form
expressions and every output event produced along the way. -/
structure RunResult where
  tDotFinal : Expr
  thetaDotFinal : Expr
  rendered : List Output
deriving DecidableEq, Repr

/-- One full run of the notebook.  The script reads no file, CLI
argument, network data or ambient state; the `stdin` parameter models
whatever input the surrounding world might offer, and the run ignores
it. -/
def runDerivation (stdin : List String) : RunResult :=
  match stdin with
  | _ => { tDotFinal := T_dot, thetaDotFinal := theta_dot, rendered := outputs }

/-- The run with its single genuinely fallible step made explicit: the
code printer rejects expressions it does not support; every other step
(symbol declaration, expression construction, differentiation,
substitution, printing) is total on the notebook's constant inputs. -/
def runChecked : Except String RunResult :=
  match pycodeChecked T_dot with
  | Except.error e => Except.error e
  | Except.ok _ => Except.ok (runDerivation [])

/-! ## Real-number semantics of expressions -/

/-- Evaluation of an expression over the reals.  `fns` interprets the
undefined functions of time, `env` assigns values to the plain symbols
(including the time symbol `t`), and an unevaluated `Derivative` node
denotes the Mathlib derivative of its operand's time slice. -/
noncomputable def evalR (fns : String → ℝ → ℝ) (env : String → ℝ) : Expr → ℝ
  | intC n => (n : ℝ)
  | sym s => env s
  | app f => fns f (env "t")
  | derivT e =>
      deriv (fun τ => evalR fns (Function.update env "t" τ) e) (env "t")
  | add a b => evalR fns env a + evalR fns env b
  | sub a b => evalR fns env a - evalR fns env b
  | mul a b => evalR fns env a * evalR fns env b
  | div a b => evalR fns env a / evalR fns env b
  | pow a n => evalR fns env a ^ n
  | sin a => Real.sin (evalR fns env a)
  | cos a => Real.cos (evalR fns env a)
  | sqrt a => Real.sqrt (evalR fns env a)
  | exp a => Real.exp (evalR fns env a)

/-- A default interpretation of the undefined functions of time; the
final expressions contain none, so it is never consulted there. -/
def fns0 : String → ℝ → ℝ := fun _ _ => 0

/-- Environment assigning `θ` and `θ̇` to the two symbols of the final
`T_dot` expression. -/
def envT (th thd : ℝ) : String → ℝ := fun s =>
  if s = "theta" then th else if s = "theta_dot" then thd else 0

/-- Environment assigning values to the six symbols of the final
`theta_dot` expression. -/
def envPhi (v0 v1 v2 w0 w1 w2 : ℝ) : String → ℝ := fun s =>
  if s = "varphi_0" then v0 else if s = "varphi_1" then v1 else
  if s = "varphi_2" then v2 else if s = "varphi_0_dot" then w0 else
  if s = "varphi_1_dot" then w1 else if s = "varphi_2_dot" then w2 else 0

/-- The one-variable coefficient
`Θ(θ) = (1/θ²)·(1 − (θ/2)·sin θ/(1 − cos θ))` whose time derivative the
notebook computes. -/
noncomputable def ThetaFun (x : ℝ) : ℝ :=
  1 / x ^ 2 * (1 - x / 2 * Real.sin x / (1 - Real.cos x))

/-! ## Theorems -/

/-- The closed form the derivation produces for `theta_dot`, written out. -/
theorem theta_dot_explicit :
    theta_dot =
      div
        (add
          (add (mul (mul (intC 2) (pow (sym "varphi_0") 1)) (sym "varphi_0_dot"))
            (mul (mul (intC 2) (pow (sym "varphi_1") 1)) (sym "varphi_1_dot")))
          (mul (mul (intC 2) (pow (sym "varphi_2") 1)) (sym "varphi_2_dot")))
        (mul (intC 2)
          (sqrt (add (add (pow (sym "varphi_0") 2) (pow (sym "varphi_1") 2))
            (pow (sym "varphi_2") 2)))) := by
  decide

/-- The closed form the derivation produces for `T_dot`, written out. -/
theorem T_dot_explicit :
    T_dot =
      add
        (mul
          (div
            (sub (mul (intC 0) (pow (sym "theta") 2))
              (mul (intC 1) (mul (mul (intC 2) (pow (sym "theta") 1)) (sym "theta_dot"))))
            (pow (pow (sym "theta") 2) 2))
          (sub (intC 1)
            (div (mul (div (sym "theta") (intC 2)) (sin (sym "theta")))
              (sub (intC 1) (cos (sym "theta"))))))
        (mul (div (intC 1) (pow (sym "theta") 2))
          (sub (intC 0)
            (div
              (sub
                (mul
                  (add
                    (mul
                      (div (sub (mul (sym "theta_dot") (intC 2)) (mul (sym "theta") (intC 0)))
                        (pow (intC 2) 2))
                      (sin (sym "theta")))
                    (mul (div (sym "theta") (intC 2))
                      (mul (cos (sym "theta")) (sym "theta_dot"))))
                  (sub (intC 1) (cos (sym "theta"))))
                (mul (mul (div (sym "theta") (intC 2)) (sin (sym "theta")))
                  (sub (intC 0)
                    (mul (sub (intC 0) (sin (sym "theta"))) (sym "theta_dot")))))
              (pow (sub (intC 1) (cos (sym "theta"))) 2)))) := by
  decide

/-- C3: substitution order matters in steps 4 and 7.  Substituting the
derivative pattern before the base-symbol pattern leaves both final
expressions fully time-independent, while applying the base-symbol
substitution first leaves an unresolved time-derivative term in each. -/
theorem C3_substitution_order_matters :
    (T_dot.timeFree = true ∧ theta_dot.timeFree = true) ∧
    (T_dot_wrongOrder.hasDeriv = true ∧ theta_dot_wrongOrder.hasDeriv = true) := by
  decide

/-- C4 counterexample: the notebook's output does not consist of exactly
two renderings: it produces nine output events, among them the print of
a third expression, the derivative of `exp(A(t))`. -/
theorem C4_not_exactly_two_outputs :
    outputs.length ≠ 2 ∧ Output.text (strE d_exprA) ∈ outputs := by
  decide

/-- C4 amended: the notebook renders the two closed forms (the `pycode`
string of `T_dot` and the display of `theta_dot`), but in total emits
nine output events: the displayed intermediate expressions and a final
print of the derivative of `exp(A(t))`. -/
theorem C4_amended_outputs :
    outputs.length = 9 ∧
    Output.text (pycode T_dot) ∈ outputs ∧
    Output.display theta_dot ∈ outputs ∧
    Output.text (strE d_exprA) ∈ outputs := by
  decide

/-- The real value of the final `T_dot` expression, written out. -/
theorem evalR_T_dot (th thd : ℝ) :
    evalR fns0 (envT th thd) T_dot =
      -(2 * th * thd) / (th ^ 2) ^ 2 * (1 - th / 2 * Real.sin th / (1 - Real.cos th)) +
        -((th ^ 2)⁻¹ *
          (((thd * 2 / 2 ^ 2 * Real.sin th + th / 2 * (Real.cos th * thd)) * (1 - Real.cos th) -
              th / 2 * Real.sin th * (Real.sin th * thd)) /
            (1 - Real.cos th) ^ 2)) := by
  rw [T_dot_explicit]
  simp [evalR, envT]

/-- Away from the singularities `x = 0` and `cos x = 1`, the coefficient
`Θ` is differentiable and its derivative has the expected closed form. -/
theorem deriv_ThetaFun (x : ℝ) (hx : x ≠ 0) (hc : Real.cos x ≠ 1) :
    DifferentiableAt ℝ ThetaFun x ∧
    deriv ThetaFun x =
      -(2 * x) / (x ^ 2) ^ 2 * (1 - x / 2 * Real.sin x / (1 - Real.cos x)) -
        1 / x ^ 2 *
          (((Real.sin x / 2 + x / 2 * Real.cos x) * (1 - Real.cos x) -
              x / 2 * Real.sin x * Real.sin x) /
            (1 - Real.cos x) ^ 2) := by
  have hv : 1 - Real.cos x ≠ 0 := sub_ne_zero.mpr (Ne.symm hc)
  have h0 :=
    ((hasDerivAt_const x (1:ℝ)).div (hasDerivAt_pow 2 x) (pow_ne_zero 2 hx)).mul
      ((hasDerivAt_const x (1:ℝ)).sub
        ((((hasDerivAt_id x).div_const (2:ℝ)).mul (Real.hasDerivAt_sin x)).div
          ((hasDerivAt_const x (1:ℝ)).sub (Real.hasDerivAt_cos x)) hv))
  have h : HasDerivAt ThetaFun _ x := h0
  refine ⟨h.differentiableAt, ?_⟩
  rw [h.deriv]
  push_cast
  field_simp
  ring

/-- C1: for `θ ≠ 0` (and `cos θ ≠ 1`, the condition for the formula's
denominators — and hence the one-variable function `Θ` — to be defined
at `θ`), the substituted `T_dot` expression evaluates exactly to `θ̇`
times the derivative of the one-variable coefficient `Θ` at `θ`. -/
theorem C1_T_dot_equals_rate_times_dTheta (th thd : ℝ) (hth : th ≠ 0)
    (hc : Real.cos th ≠ 1) :
    DifferentiableAt ℝ ThetaFun th ∧
    evalR fns0 (envT th thd) T_dot = thd * deriv ThetaFun th := by
  obtain ⟨hdiff, hder⟩ := deriv_ThetaFun th hth hc
  have hv : 1 - Real.cos th ≠ 0 := sub_ne_zero.mpr (Ne.symm hc)
  refine ⟨hdiff, ?_⟩
  rw [evalR_T_dot, hder]
  field_simp
  ring

/-- C1 witness: the identity instantiated at `θ = π`, `θ̇ = 2`. -/
theorem C1_T_dot_witness :
    (Real.pi ≠ 0 ∧ Real.cos Real.pi ≠ 1) ∧
    (DifferentiableAt ℝ ThetaFun Real.pi ∧
      evalR fns0 (envT Real.pi 2) T_dot = 2 * deriv ThetaFun Real.pi) := by
  have h1 : Real.pi ≠ 0 := Real.pi_ne_zero
  have h2 : Real.cos Real.pi ≠ 1 := by
    rw [Real.cos_pi]
    norm_num
  exact ⟨⟨h1, h2⟩, C1_T_dot_equals_rate_times_dTheta Real.pi 2 h1 h2⟩

/-- C2: for any three real functions of time with derivatives `dᵢ` at
`τ` and nonvanishing norm there, the substituted `theta_dot` expression
evaluates exactly to the dot product over the norm, and that value is
exactly the derivative of the norm trajectory at `τ`. -/
theorem C2_theta_dot_norm_derivative (f₀ f₁ f₂ : ℝ → ℝ) (τ d₀ d₁ d₂ : ℝ)
    (h₀ : HasDerivAt f₀ d₀ τ) (h₁ : HasDerivAt f₁ d₁ τ) (h₂ : HasDerivAt f₂ d₂ τ)
    (hn : Real.sqrt (f₀ τ ^ 2 + f₁ τ ^ 2 + f₂ τ ^ 2) ≠ 0) :
    evalR fns0 (envPhi (f₀ τ) (f₁ τ) (f₂ τ) d₀ d₁ d₂) theta_dot =
      (f₀ τ * d₀ + f₁ τ * d₁ + f₂ τ * d₂) /
        Real.sqrt (f₀ τ ^ 2 + f₁ τ ^ 2 + f₂ τ ^ 2) ∧
    HasDerivAt (fun u => Real.sqrt (f₀ u ^ 2 + f₁ u ^ 2 + f₂ u ^ 2))
      (evalR fns0 (envPhi (f₀ τ) (f₁ τ) (f₂ τ) d₀ d₁ d₂) theta_dot) τ := by
  have hS0 : f₀ τ ^ 2 + f₁ τ ^ 2 + f₂ τ ^ 2 ≠ 0 := by
    intro h
    apply hn
    rw [h, Real.sqrt_zero]
  have hval : evalR fns0 (envPhi (f₀ τ) (f₁ τ) (f₂ τ) d₀ d₁ d₂) theta_dot =
      (f₀ τ * d₀ + f₁ τ * d₁ + f₂ τ * d₂) /
        Real.sqrt (f₀ τ ^ 2 + f₁ τ ^ 2 + f₂ τ ^ 2) := by
    rw [theta_dot_explicit]
    simp [evalR, envPhi]
    field_simp
    ring
  refine ⟨hval, ?_⟩
  have hS := ((h₀.pow 2).add (h₁.pow 2)).add (h₂.pow 2)
  have hsq := Real.hasDerivAt_sqrt hS0
  have hcomp := hsq.comp τ hS
  have hfun : (fun u => Real.sqrt (f₀ u ^ 2 + f₁ u ^ 2 + f₂ u ^ 2)) =
      Real.sqrt ∘ (fun u => f₀ u ^ 2 + f₁ u ^ 2 + f₂ u ^ 2) := rfl
  rw [hval, hfun]
  convert hcomp using 1
  push_cast
  field_simp
  ring

/-- C2 witness: the identity instantiated on the trajectory
`φ(t) = (1, t, 0)` at `τ = 0`, where the norm is `1`. -/
theorem C2_theta_dot_witness :
    (HasDerivAt (fun _ : ℝ => (1:ℝ)) 0 0 ∧ HasDerivAt (fun u : ℝ => u) 1 0 ∧
      HasDerivAt (fun _ : ℝ => (0:ℝ)) 0 0 ∧
      Real.sqrt ((1:ℝ) ^ 2 + 0 ^ 2 + 0 ^ 2) ≠ 0) ∧
    (evalR fns0 (envPhi 1 0 0 0 1 0) theta_dot =
        (1 * 0 + 0 * 1 + 0 * 0) / Real.sqrt ((1:ℝ) ^ 2 + 0 ^ 2 + 0 ^ 2) ∧
      HasDerivAt (fun u : ℝ => Real.sqrt (1 ^ 2 + u ^ 2 + 0 ^ 2))
        (evalR fns0 (envPhi 1 0 0 0 1 0) theta_dot) 0) := by
  have h₀ : HasDerivAt (fun _ : ℝ => (1:ℝ)) 0 0 := hasDerivAt_const 0 1
  have h₁ : HasDerivAt (fun u : ℝ => u) 1 0 := hasDerivAt_id 0
  have h₂ : HasDerivAt (fun _ : ℝ => (0:ℝ)) 0 0 := hasDerivAt_const 0 0
  have hn : Real.sqrt ((1:ℝ) ^ 2 + 0 ^ 2 + 0 ^ 2) ≠ 0 := by
    norm_num
  exact ⟨⟨h₀, h₁, h₂, hn⟩,
    C2_theta_dot_norm_derivative (fun _ => 1) (fun u => u) (fun _ => 0) 0 0 1 0 h₀ h₁ h₂ hn⟩

/-- C6: at `φ = (1,0,0)` and `φ̇ = (0,1,0)` the dot product in the
numerator is `0` and the final `theta_dot` expression evaluates exactly
to `0`. -/
theorem C6_orthogonal_rate_gives_zero :
    ((1:ℝ) * 0 + 0 * 1 + 0 * 0 = 0) ∧
    evalR fns0 (envPhi 1 0 0 0 1 0) theta_dot = 0 := by
  constructor
  · norm_num
  · rw [theta_dot_explicit]
    simp [evalR, envPhi]

/-- C5: the raw time derivative of `Θ(t)`, before any substitution,
contains both the function of time `theta(t)` and its unevaluated time
derivative `Derivative(theta(t), t)`. -/
theorem C5_raw_derivative_mentions_theta_and_rate :
    containsSub theta_t T_dot_raw = true ∧
    containsSub (derivT theta_t) T_dot_raw = true := by
  decide

/-- C7: the derivation is deterministic and stateless: it takes no
input, and any two runs produce identical results, in particular
syntactically identical final expressions. -/
theorem C7_deterministic (s₁ s₂ : List String) :
    runDerivation s₁ = runDerivation s₂ ∧
    (runDerivation s₁).tDotFinal = (runDerivation s₂).tDotFinal ∧
    (runDerivation s₁).thetaDotFinal = (runDerivation s₂).thetaDotFinal := by
  exact ⟨rfl, rfl, rfl⟩

/-- C8 counterexample: the rate symbol `varphi_0_dot` occurs in the
final `theta_dot` expression but is never declared with the real-valued
assumption — it enters as a plain string handed to the substitution. -/
theorem C8_rate_symbol_not_declared_real :
    "varphi_0_dot" ∈ theta_dot.atomSyms ∧ declaredReal "varphi_0_dot" = false := by
  decide

/-- C8 amended: every atomic symbol of the final `T_dot` expression is
declared real-valued, and every atomic symbol of the final `theta_dot`
expression is either declared real-valued or one of the three rate
symbols `varphi_i_dot`, which are created without any assumption. -/
theorem C8_amended_assumptions :
    (∀ s ∈ T_dot.atomSyms, declaredReal s = true) ∧
    (∀ s ∈ theta_dot.atomSyms, declaredReal s = true ∨ s ∈ phi_n) ∧
    (∀ s ∈ phi_n, declaredReal s = false) := by
  decide

/-- C9: the whole run succeeds: every step of the fixed derivation
sequence is total on the notebook's internally declared inputs, and the
one step with a failure mode in the engine — the code printer — accepts
the expression it is given, so no error branch is reached. -/
theorem C9_run_succeeds : runChecked = Except.ok (runDerivation []) := by
  rfl

/-- C10: after the substitution pairs are applied, both final
expressions are fully time-independent — no derivative node and no
applied function of `t` — and the expressions rendered at the end are
exactly these substituted expressions, unchanged. -/
theorem C10_time_independence_preserved :
    T_dot.timeFree = true ∧ theta_dot.timeFree = true ∧
    Output.text (pycode T_dot) ∈ outputs ∧ Output.display theta_dot ∈ outputs := by
  decide

end AngVelXformDot
